import Mathlib

/-!
Shallow embedding of the puzzle-datamuse word-frequency backfill job.

Source files embedded:
- src/DatamuseService.js : `fetchWordFrequency` (the FrequencyLookupClient)
- src/datamuseProcessor.js : `queryWordsNeedingInfo`, `updateWordInfo`,
  `processWords` (the BatchProcessor) and `processAllWords`
  (the ContinuousRunner).

External effects are embedded as explicit parameters:
- the lexical service response for a word is a `LookupOutcome` oracle
  (`String → LookupOutcome`): either the JSON array that the HTTP call
  produced, or a thrown transport/timeout error with its message;
- the database UPDATE either runs or throws, decided by a failure oracle
  (`String → Option String`; `some msg` means the statement threw);
- the wall clock (`new Date().toISOString()`) is a `now : String` parameter;
- the dictionary table is a `List Row`, and the two SQL statements are
  translated to list operations following their WHERE / ORDER BY / LIMIT
  clauses.

JavaScript exceptions are embedded with `Except String`; a JS function that
returns `undefined` on some path is embedded returning `Option`.
-/

/-- One candidate entry of the lexical service response
(`wordData` in src/DatamuseService.js). `tags` may be absent
(`wordData.tags` falsy) and `score` may be absent. -/
structure WordEntry where
  tags : Option (List String)
  score : Option Int
deriving Repr, DecidableEq

/-- What the `axios.get` call in `fetchWordFrequency` does for one word:
either it resolves with a JSON array of entries, or it throws
(transport error / timeout) with a message. -/
inductive LookupOutcome where
  | response (data : List WordEntry)
  | failure (msg : String)
deriving Repr, DecidableEq

/-- The object returned by `fetchWordFrequency`
(src/DatamuseService.js lines 37-67). A field that the JS object omits
(`error` on the match branch) or that is `null` is `none`;
`fetched_at` is present on every branch. -/
structure FreqResult where
  frequency : Option String
  score : Option Int
  fetched_at : Option String
  error : Option String
deriving Repr, DecidableEq

/-- The body of the `try` block of `fetchWordFrequency`
(src/DatamuseService.js lines 18-56): the awaited HTTP call rethrows a
transport failure; otherwise the response array is inspected.
`data && data.length > 0` is the match on a non-empty list;
`frequency ? frequency.substring(2) : null` drops the `f:` prefix of the
first tag starting with `f:`; `wordData.score || null` turns the JS-falsy
score 0 (and an absent score) into null. -/
def fetchWordFrequencyBody (outcome : LookupOutcome) (now : String) :
    Except String FreqResult :=
  match outcome with
  | .failure msg => .error msg
  | .response data =>
    match data with
    | [] =>
      .ok { frequency := none, score := none, fetched_at := some now,
            error := some "Word not found in Datamuse database" }
    | wordData :: _ =>
      let frequency : Option String :=
        match wordData.tags with
        | some ts => (ts.find? (fun tag => tag.startsWith "f:")).map
            (fun tag => tag.drop 2)
        | none => none
      let score : Option Int :=
        match wordData.score with
        | some v => if v = 0 then none else some v
        | none => none
      .ok { frequency := frequency, score := score, fetched_at := some now,
            error := none }

/-- `fetchWordFrequency` (src/DatamuseService.js lines 17-69): the `try`
body with its `catch`, which folds any thrown error into the returned
result. The function is total: no failure escapes. -/
def fetchWordFrequency (outcome : LookupOutcome) (now : String) :
    FreqResult :=
  match fetchWordFrequencyBody outcome now with
  | .ok r => r
  | .error msg =>
    { frequency := none, score := none, fetched_at := some now,
      error := some msg }

/-- A row of the `dictionary` table. `created_at` is the creation
timestamp used by the ORDER BY clause. -/
structure Row where
  word : String
  language : String
  source : String
  info : Option FreqResult
  created_at : Nat
deriving Repr, DecidableEq

/-- The WHERE clause of `queryWordsNeedingInfo`
(src/datamuseProcessor.js lines 25-33): language = english,
source = wiktionary, info IS NULL. -/
def eligible (r : Row) : Bool :=
  r.language == "english" && r.source == "wiktionary" && r.info.isNone

/-- `queryWordsNeedingInfo` (src/datamuseProcessor.js lines 23-42):
SELECT the eligible rows, ORDER BY created_at ASC, LIMIT `limit`. -/
def queryWordsNeedingInfo (store : List Row) (limit : Nat) : List Row :=
  (((store.filter eligible).insertionSort
    (fun a b => a.created_at ≤ b.created_at)).take limit)

/-- The WHERE clause of the UPDATE statement in `updateWordInfo`
(src/datamuseProcessor.js lines 52-58): word matches and the fixed
language/source constants match. Note it does not require info IS NULL. -/
def rowMatches (word : String) (r : Row) : Bool :=
  r.word == word && r.language == "english" && r.source == "wiktionary"

/-- Effect of the UPDATE statement on the table: set `info` on every
matching row. -/
def applyUpdate (store : List Row) (word : String) (info : FreqResult) :
    List Row :=
  store.map (fun r =>
    if rowMatches word r then { r with info := some info } else r)

/-- `updateWordInfo` (src/datamuseProcessor.js lines 50-67): if the
statement throws, the catch logs and rethrows (`Except.error`); otherwise
the table is updated and `result.rowCount > 0` is returned together with
the new table. `fail` is the oracle saying whether the statement throws
for this word. -/
def updateWordInfo (fail : String → Option String) (store : List Row)
    (word : String) (info : FreqResult) :
    Except String (List Row × Bool) :=
  match fail word with
  | some msg => .error msg
  | none =>
    .ok (applyUpdate store word info,
         decide (0 < (store.filter (rowMatches word)).length))

/-- The tally returned by `processWords`
(src/datamuseProcessor.js line 129). -/
structure BatchResult where
  processedCount : Nat
  successCount : Nat
  errorCount : Nat
deriving Repr, DecidableEq

/-- The per-word `for` loop of `processWords`
(src/datamuseProcessor.js lines 92-122). For each selected row:
fetch the frequency (never throws), then update the database.
If the update throws, the per-word catch increments `errorCount` and the
loop continues; `processedCount` is NOT incremented on that path because
the `processedCount++` statement sits after the update inside the `try`.
If the update returns, success or error is tallied from its boolean and
then `processedCount` is incremented. Returns the final table state and
the tally. -/
def processWordsLoop (lookup : String → LookupOutcome)
    (fail : String → Option String) (now : String) :
    List Row → List Row → BatchResult → List Row × BatchResult
  | store, [], acc => (store, acc)
  | store, wordRow :: rest, acc =>
    let word := wordRow.word
    let frequencyInfo := fetchWordFrequency (lookup word) now
    match updateWordInfo fail store word frequencyInfo with
    | .error _ =>
      processWordsLoop lookup fail now store rest
        { acc with errorCount := acc.errorCount + 1 }
    | .ok (store2, updateSuccess) =>
      let acc2 :=
        if updateSuccess then
          { acc with successCount := acc.successCount + 1 }
        else
          { acc with errorCount := acc.errorCount + 1 }
      processWordsLoop lookup fail now store2 rest
        { acc2 with processedCount := acc2.processedCount + 1 }

/-- `processWords` (src/datamuseProcessor.js lines 74-135): select up to
`batchSize` pending rows; when the selection is empty the function does
a bare `return;` — it returns `undefined`, embedded as `none`, NOT a
zero-count tally. Otherwise the per-word loop runs and the tally object
of line 129 is returned. Also returns the resulting table state. -/
def processWords (lookup : String → LookupOutcome)
    (fail : String → Option String) (now : String)
    (store : List Row) (batchSize : Nat) :
    Option BatchResult × List Row :=
  let words := queryWordsNeedingInfo store batchSize
  if words.length = 0 then
    (none, store)
  else
    let out := processWordsLoop lookup fail now store words ⟨0, 0, 0⟩
    (some out.2, out.1)

/-- State of the `while (true)` loop of `processAllWords`
(src/datamuseProcessor.js lines 143-203): either still running with the
current table, running totals and batch number, or done (after a
`break`). -/
inductive RunnerState where
  | running (store : List Row) (totals : BatchResult) (batchNumber : Nat)
  | done (store : List Row) (totals : BatchResult) (batchNumber : Nat)
deriving Repr, DecidableEq

/-- Whether the runner has reached a `break`. -/
def RunnerState.isDone : RunnerState → Bool
  | .running _ _ _ => false
  | .done _ _ _ => true

/-- One iteration of the `while (true)` loop of `processAllWords`
(src/datamuseProcessor.js lines 154-195). When `processWords` returned
`undefined` (empty selection), the `result.processedCount` access on
line 161 throws a TypeError, which the surrounding catch absorbs:
`totalErrors++` and the loop continues. Otherwise: `processedCount === 0`
breaks before accumulating; else totals are accumulated, the batch number
incremented, and `processedCount < batchSize` breaks; else loop again
after the inter-batch pause. -/
def runnerStep (lookup : String → LookupOutcome)
    (fail : String → Option String) (now : String) (batchSize : Nat) :
    RunnerState → RunnerState
  | .done store totals n => .done store totals n
  | .running store totals n =>
    match processWords lookup fail now store batchSize with
    | (none, store2) =>
      .running store2
        { totals with errorCount := totals.errorCount + 1 } n
    | (some r, store2) =>
      if r.processedCount = 0 then
        .done store2 totals n
      else
        let totals2 : BatchResult :=
          ⟨totals.processedCount + r.processedCount,
           totals.successCount + r.successCount,
           totals.errorCount + r.errorCount⟩
        if r.processedCount < batchSize then
          .done store2 totals2 (n + 1)
        else
          .running store2 totals2 (n + 1)

/-- A lookup oracle whose every response is the empty match list. -/
def lookupNotFound : String → LookupOutcome := fun _ => .response []

/-- An update-failure oracle under which no UPDATE statement throws. -/
def failNever : String → Option String := fun _ => none

/-- An update-failure oracle under which every UPDATE statement throws. -/
def failAlways : String → Option String := fun _ => some "connection terminated"

/-- A pending dictionary row used as a concrete test fixture. -/
def appleRow : Row :=
  { word := "apple", language := "english", source := "wiktionary",
    info := none, created_at := 0 }

/-- A pending dictionary row with the given word and creation time. -/
def mkRow (w : String) (t : Nat) : Row :=
  { word := w, language := "english", source := "wiktionary",
    info := none, created_at := t }

/-- A store of five pending rows, Scenario C of the spec. -/
def store5 : List Row :=
  [mkRow "w1" 1, mkRow "w2" 2, mkRow "w3" 3, mkRow "w4" 4, mkRow "w5" 5]

/-- An update-failure oracle that throws exactly on the word w2. -/
def failOnW2 : String → Option String :=
  fun w => if w == "w2" then some "connectivity loss" else none

/-- Whether a result carries any successful payload (a frequency or a
score). -/
def hasPayload (r : FreqResult) : Bool :=
  r.frequency.isSome || r.score.isSome

/-- Whether a lookup outcome is a failure for the purposes of the error
field: a thrown transport error or an empty match list. -/
def outcomeFails : LookupOutcome → Bool
  | .failure _ => true
  | .response data => data.isEmpty

/-- Per-word tallies of the batch loop: success plus error grows by one
per word consumed, and processed grows by at most one per word (the
update-throws path skips the processed increment). -/
theorem processWordsLoop_tally (lookup : String → LookupOutcome)
    (fail : String → Option String) (now : String) :
    ∀ (ws store : List Row) (acc : BatchResult),
      (processWordsLoop lookup fail now store ws acc).2.successCount +
        (processWordsLoop lookup fail now store ws acc).2.errorCount =
        acc.successCount + acc.errorCount + ws.length ∧
      (processWordsLoop lookup fail now store ws acc).2.processedCount ≤
        acc.processedCount + ws.length := by
  intro ws
  induction ws with
  | nil =>
    intro store acc
    simp [processWordsLoop]
  | cons w rest ih =>
    intro store acc
    obtain ⟨p, s, e⟩ := acc
    simp only [processWordsLoop]
    cases hupd : updateWordInfo fail store w.word
        (fetchWordFrequency (lookup w.word) now) with
    | error msg =>
      have h2 := ih store ⟨p, s, e + 1⟩
      simp at h2 ⊢
      omega
    | ok pr =>
      obtain ⟨store2, b⟩ := pr
      cases b with
      | true =>
        have h2 := ih store2 ⟨p + 1, s + 1, e⟩
        simp at h2 ⊢
        omega
      | false =>
        have h2 := ih store2 ⟨p + 1, s, e + 1⟩
        simp at h2 ⊢
        omega

/-- The selection is capped at the LIMIT argument. -/
theorem queryWordsNeedingInfo_length_le (store : List Row) (limit : Nat) :
    (queryWordsNeedingInfo store limit).length ≤ limit := by
  simp only [queryWordsNeedingInfo, List.length_take]
  omega

/-- C6: for every batch size B, whenever processWords returns a tally
(the selection was non-empty), the processed count of that tally is at
most B. -/
theorem C6_processed_le_batchSize (lookup : String → LookupOutcome)
    (fail : String → Option String) (now : String) (store : List Row)
    (B : Nat) (r : BatchResult) (store2 : List Row)
    (h : processWords lookup fail now store B = (some r, store2)) :
    r.processedCount ≤ B := by
  by_cases h0 : (queryWordsNeedingInfo store B).length = 0
  · simp [processWords, h0] at h
  · simp [processWords, h0] at h
    have hloop := (processWordsLoop_tally lookup fail now
      (queryWordsNeedingInfo store B) store ⟨0, 0, 0⟩).2
    rw [h.1] at hloop
    exact Nat.le_trans hloop
      (by simpa using queryWordsNeedingInfo_length_le store B)

/-- C6 witness: a store of one pending row and batch size 1; the UPDATE
throws, so the tally is 0 processed, 0 success, 1 error, and 0 ≤ 1. -/
theorem C6_witness :
    (⟨0, 0, 1⟩ : BatchResult).processedCount ≤ 1 :=
  C6_processed_le_batchSize lookupNotFound failAlways "t" [appleRow] 1
    ⟨0, 0, 1⟩ [appleRow] (by decide)

/-- C9: whenever processWords returns a tally, each selected word lands
in exactly one of the success or error counts: success plus error equals
the number of rows the selection returned. -/
theorem C9_success_plus_error_eq_selected (lookup : String → LookupOutcome)
    (fail : String → Option String) (now : String) (store : List Row)
    (B : Nat) (r : BatchResult) (store2 : List Row)
    (h : processWords lookup fail now store B = (some r, store2)) :
    r.successCount + r.errorCount = (queryWordsNeedingInfo store B).length := by
  by_cases h0 : (queryWordsNeedingInfo store B).length = 0
  · simp [processWords, h0] at h
  · simp [processWords, h0] at h
    have hloop := (processWordsLoop_tally lookup fail now
      (queryWordsNeedingInfo store B) store ⟨0, 0, 0⟩).1
    rw [h.1] at hloop
    simpa using hloop

/-- C9 witness: one pending row, batch size 1, UPDATE throws: the tally
is 0 success and 1 error; one row was selected. -/
theorem C9_witness :
    (⟨0, 0, 1⟩ : BatchResult).successCount +
      (⟨0, 0, 1⟩ : BatchResult).errorCount =
      (queryWordsNeedingInfo [appleRow] 1).length :=
  C9_success_plus_error_eq_selected lookupNotFound failAlways "t" [appleRow]
    1 ⟨0, 0, 1⟩ [appleRow] (by decide)

/-- C2: with an empty store the selection is empty and processWords hits
the bare return on line 83 of src/datamuseProcessor.js: it returns
undefined (none), for every batch size and every oracle — NOT the
zero-count tally the spec promises. -/
theorem C2_empty_selection_returns_undefined (lookup : String → LookupOutcome)
    (fail : String → Option String) (now : String) (batchSize : Nat) :
    processWords lookup fail now [] batchSize = (none, []) ∧
    (processWords lookup fail now [] batchSize).1 ≠
      some { processedCount := 0, successCount := 0, errorCount := 0 } := by
  have h : processWords lookup fail now [] batchSize = (none, []) := by
    simp [processWords, queryWordsNeedingInfo]
  refine ⟨h, ?_⟩
  rw [h]
  simp

/-- Iterating the runner loop from a Running state over an empty store:
every iteration selects zero rows, processWords returns undefined, the
line-161 field access throws, the catch adds one to the error total, and
the state stays Running with the same store and batch number. -/
theorem runnerStep_iterate_empty (lookup : String → LookupOutcome)
    (fail : String → Option String) (now : String) (batchSize : Nat) :
    ∀ (k p s e n : Nat),
      (runnerStep lookup fail now batchSize)^[k]
        (RunnerState.running [] ⟨p, s, e⟩ n) =
      RunnerState.running [] ⟨p, s, e + k⟩ n := by
  intro k
  induction k with
  | zero =>
    intro p s e n
    rfl
  | succ k ih =>
    intro p s e n
    rw [Function.iterate_succ_apply]
    have hstep : runnerStep lookup fail now batchSize
        (RunnerState.running [] ⟨p, s, e⟩ n) =
        RunnerState.running [] ⟨p, s, e + 1⟩ n := by
      simp [runnerStep, processWords, queryWordsNeedingInfo]
    rw [hstep, ih]
    have harith : e + 1 + k = e + (k + 1) := by omega
    rw [harith]

/-- C1: with zero eligible rows the batch selects zero words, yet the
runner never transitions to Done: after any number k of loop iterations
it is still Running (each iteration absorbs the TypeError thrown by the
result.processedCount access on undefined and retries). -/
theorem C1_runner_never_done_on_empty_store (k : Nat) :
    queryWordsNeedingInfo [] 1000 = [] ∧
    ((runnerStep lookupNotFound failNever "t" 1000)^[k]
      (RunnerState.running [] ⟨0, 0, 0⟩ 1)).isDone = false := by
  refine ⟨by simp [queryWordsNeedingInfo], ?_⟩
  rw [runnerStep_iterate_empty lookupNotFound failNever "t" 1000 k 0 0 0 1]
  rfl

/-- C4: the lookup is total over every outcome of the external call —
its catch folds a thrown transport/timeout failure into a returned
result with null frequency, null score and the failure message in the
error field — and every returned result carries the fetch timestamp. -/
theorem C4_lookup_never_raises (outcome : LookupOutcome) (now msg : String) :
    (fetchWordFrequency outcome now).fetched_at = some now ∧
    fetchWordFrequency (LookupOutcome.failure msg) now =
      { frequency := none, score := none, fetched_at := some now,
        error := some msg } := by
  refine ⟨?_, rfl⟩
  cases outcome with
  | failure m => rfl
  | response data =>
    cases data with
    | nil => rfl
    | cons w ws => rfl

/-- C8 counterexample: a matching entry with no tags and a relevance
score of 0 produces a result with fetched_at set but with NEITHER a
frequency/score payload NOR an error — refuting that exactly one of the
two is always populated. -/
theorem C8_counterexample :
    (fetchWordFrequency
      (LookupOutcome.response [{ tags := none, score := some 0 }])
      "t").fetched_at = some "t" ∧
    hasPayload (fetchWordFrequency
      (LookupOutcome.response [{ tags := none, score := some 0 }]) "t")
      = false ∧
    (fetchWordFrequency
      (LookupOutcome.response [{ tags := none, score := some 0 }])
      "t").error = none := by
  refine ⟨rfl, ?_, rfl⟩
  decide

/-- C8 amended: every result has fetched_at set; a payload and an error
are never both populated; and the error field is populated exactly when
the call failed or matched nothing — but on a match with no frequency
tag and a falsy score, neither side is populated. -/
theorem C8_amended_invariant (outcome : LookupOutcome) (now : String) :
    (fetchWordFrequency outcome now).fetched_at = some now ∧
    (hasPayload (fetchWordFrequency outcome now) &&
      (fetchWordFrequency outcome now).error.isSome) = false ∧
    (fetchWordFrequency outcome now).error.isSome = outcomeFails outcome := by
  cases outcome with
  | failure m =>
    refine ⟨rfl, ?_, rfl⟩
    simp [fetchWordFrequency, fetchWordFrequencyBody, hasPayload]
  | response data =>
    cases data with
    | nil => exact ⟨rfl, rfl, rfl⟩
    | cons w ws =>
      refine ⟨rfl, ?_, rfl⟩
      simp [fetchWordFrequency, fetchWordFrequencyBody, hasPayload]

/-- C10: a matching entry whose relevance score is 0 yields the same
result as one whose score is absent — the JS truthiness coercion
(score || null) maps both to a null score. -/
theorem C10_zero_score_is_null (tags : Option (List String))
    (rest : List WordEntry) (now : String) :
    fetchWordFrequency
        (LookupOutcome.response ({ tags := tags, score := some 0 } :: rest))
        now =
      fetchWordFrequency
        (LookupOutcome.response ({ tags := tags, score := none } :: rest))
        now ∧
    (fetchWordFrequency
        (LookupOutcome.response ({ tags := tags, score := some 0 } :: rest))
        now).score = none := by
  constructor
  · simp [fetchWordFrequency, fetchWordFrequencyBody]
  · simp [fetchWordFrequency, fetchWordFrequencyBody]

/-- C5: an empty match list yields the not-found result (null frequency,
null score, the "Word not found" error); in the batch loop that result is
still written into the store, and when the UPDATE runs and matches a row
the word is tallied as a success (and as processed), not as an error. -/
theorem C5_not_found_written_counts_success (lookup : String → LookupOutcome)
    (fail : String → Option String) (now : String) (store : List Row)
    (w : Row) (rest : List Row) (acc : BatchResult)
    (hlk : lookup w.word = LookupOutcome.response [])
    (hfail : fail w.word = none)
    (hmatch : 0 < (store.filter (rowMatches w.word)).length) :
    fetchWordFrequency (LookupOutcome.response []) now =
      { frequency := none, score := none, fetched_at := some now,
        error := some "Word not found in Datamuse database" } ∧
    processWordsLoop lookup fail now store (w :: rest) acc =
      processWordsLoop lookup fail now
        (applyUpdate store w.word
          (fetchWordFrequency (LookupOutcome.response []) now))
        rest
        ⟨acc.processedCount + 1, acc.successCount + 1, acc.errorCount⟩ := by
  obtain ⟨p, s, e⟩ := acc
  refine ⟨rfl, ?_⟩
  simp only [processWordsLoop, hlk, updateWordInfo, hfail]
  simp [hmatch]

/-- C5 witness: one pending row "apple", a not-found lookup, a healthy
database: the loop writes the not-found record and tallies a success. -/
theorem C5_witness :
    fetchWordFrequency (LookupOutcome.response []) "t" =
      { frequency := none, score := none, fetched_at := some "t",
        error := some "Word not found in Datamuse database" } ∧
    processWordsLoop lookupNotFound failNever "t" [appleRow]
        (appleRow :: []) ⟨0, 0, 0⟩ =
      processWordsLoop lookupNotFound failNever "t"
        (applyUpdate [appleRow] appleRow.word
          (fetchWordFrequency (LookupOutcome.response []) "t"))
        []
        ⟨0 + 1, 0 + 1, 0⟩ :=
  C5_not_found_written_counts_success lookupNotFound failNever "t"
    [appleRow] appleRow [] ⟨0, 0, 0⟩ rfl rfl (by decide)

/-- C3 counterexample: Scenario C — five pending rows, the UPDATE throws
for exactly the word w2 — returns the tally 4 processed, 4 success,
1 error, not the 5 processed the claim states: the processedCount
increment on line 110 sits after the update call in the try block, so a
throwing update skips it. -/
theorem C3_counterexample :
    (processWords lookupNotFound failOnW2 "t" store5 5).1 =
      some ⟨4, 4, 1⟩ ∧
    (processWords lookupNotFound failOnW2 "t" store5 5).1 ≠
      some ⟨5, 4, 1⟩ := by
  constructor
  · decide
  · decide

/-- C3 amended: a word whose UPDATE throws is tallied as an error but
NOT as processed, the loop continues with the store unchanged, and no
exception escapes; in Scenario C the batch therefore completes with
4 processed, 4 success, 1 error. -/
theorem C3_raise_counts_error_not_processed (lookup : String → LookupOutcome)
    (fail : String → Option String) (now msg : String) (store : List Row)
    (w : Row) (rest : List Row) (acc : BatchResult)
    (hfail : fail w.word = some msg) :
    processWordsLoop lookup fail now store (w :: rest) acc =
      processWordsLoop lookup fail now store rest
        ⟨acc.processedCount, acc.successCount, acc.errorCount + 1⟩ ∧
    (processWords lookupNotFound failOnW2 "t" store5 5).1 =
      some ⟨4, 4, 1⟩ := by
  obtain ⟨p, s, e⟩ := acc
  constructor
  · simp only [processWordsLoop, updateWordInfo, hfail]
  · decide

/-- C3 witness: the loop step at the word w2 with the throwing oracle:
the error count rises by one, processed stays, and the scenario tally is
4/4/1. -/
theorem C3_witness :
    (processWordsLoop lookupNotFound failOnW2 "t" store5
        (mkRow "w2" 2 :: []) ⟨0, 0, 0⟩ =
      processWordsLoop lookupNotFound failOnW2 "t" store5 [] ⟨0, 0, 1⟩) ∧
    (processWords lookupNotFound failOnW2 "t" store5 5).1 =
      some ⟨4, 4, 1⟩ :=
  C3_raise_counts_error_not_processed lookupNotFound failOnW2 "t"
    "connectivity loss" store5 (mkRow "w2" 2) [] ⟨0, 0, 0⟩ (by decide)

/-- C7: the selection returns at most limit rows; every returned row is
an english/wiktionary row with null info; the rows come back ordered by
creation time ascending; when all eligible rows fit under the limit the
selection is exactly the eligible rows (as a multiset); and with no
eligible row it is empty. -/
theorem C7_selectPending_spec (store : List Row) (limit : Nat) :
    (queryWordsNeedingInfo store limit).length ≤ limit ∧
    (∀ r ∈ queryWordsNeedingInfo store limit,
      r.language = "english" ∧ r.source = "wiktionary" ∧ r.info = none) ∧
    (queryWordsNeedingInfo store limit).Pairwise
      (fun a b => a.created_at ≤ b.created_at) ∧
    ((store.filter eligible).length ≤ limit →
      (queryWordsNeedingInfo store limit).Perm (store.filter eligible)) ∧
    ((∀ r ∈ store, eligible r = false) →
      queryWordsNeedingInfo store limit = []) := by
  refine ⟨queryWordsNeedingInfo_length_le store limit, ?_, ?_, ?_, ?_⟩
  · intro r hr
    have hr2 : r ∈ store.filter eligible :=
      (List.perm_insertionSort _ _).mem_iff.mp (List.mem_of_mem_take hr)
    have heli : eligible r = true := (List.mem_filter.mp hr2).2
    have heli2 : (r.language = "english" ∧ r.source = "wiktionary") ∧
        r.info = none := by
      simpa [eligible, Option.isNone_iff_eq_none] using heli
    exact ⟨heli2.1.1, heli2.1.2, heli2.2⟩
  · haveI : IsTotal Row (fun a b => a.created_at ≤ b.created_at) :=
      ⟨fun a b => Nat.le_total a.created_at b.created_at⟩
    haveI : IsTrans Row (fun a b => a.created_at ≤ b.created_at) :=
      ⟨fun _ _ _ hab hbc => Nat.le_trans hab hbc⟩
    exact List.Pairwise.sublist (List.take_sublist _ _)
      (List.sorted_insertionSort _ _)
  · intro hle
    have hlen2 : ((store.filter eligible).insertionSort
        (fun a b => a.created_at ≤ b.created_at)).length ≤ limit := by
      rwa [List.length_insertionSort]
    unfold queryWordsNeedingInfo
    rw [List.take_of_length_le hlen2]
    exact List.perm_insertionSort _ _
  · intro hall
    have hnil : store.filter eligible = [] :=
      List.filter_eq_nil_iff.mpr (fun a ha => by simp [hall a ha])
    simp [queryWordsNeedingInfo, hnil, List.insertionSort]

/-- C7 witness: with one pending row and limit 1 the selection is a
permutation of the eligible rows, and over an empty store it is empty. -/
theorem C7_witness :
    (queryWordsNeedingInfo [appleRow] 1).Perm ([appleRow].filter eligible) ∧
    queryWordsNeedingInfo [] 1 = [] :=
  ⟨(C7_selectPending_spec [appleRow] 1).2.2.2.1 (by decide),
   (C7_selectPending_spec [] 1).2.2.2.2 (by simp)⟩
